import Mathlib

/-!
Shallow embedding of the authentication service in `src/app.py`.

Python values that flow through the orchestrator (JSON payloads, redis
strings, `None`) are modelled by `PyVal`.  The per-call sources of
nondeterminism (the random rejection draw, the generated uuid, redis and
kafka behaviour, the directory HTTP response) are collected in an `Oracle`
given to a call.  The redis store is an association list threaded through
calls; every observable side effect (log lines, kafka publishes, counter
increments, cache reads/writes, directory requests) is recorded in a
`Trace`.
-/

/-- Python values reaching the orchestrator: `None`, strings, and JSON
objects (dicts with string keys).  The record returned by the member
service and the payloads logged or returned are such values. -/
inductive PyVal where
  | pynone : PyVal
  | pystr : String → PyVal
  | pydict : List (String × PyVal) → PyVal

mutual

/-- Decidable equality on `PyVal`, by mutual recursion with the field
lists of dicts. -/
def decEqPyVal : (a b : PyVal) → Decidable (a = b)
  | PyVal.pynone, PyVal.pynone => Decidable.isTrue rfl
  | PyVal.pynone, PyVal.pystr _ => Decidable.isFalse (fun h => PyVal.noConfusion h)
  | PyVal.pynone, PyVal.pydict _ => Decidable.isFalse (fun h => PyVal.noConfusion h)
  | PyVal.pystr _, PyVal.pynone => Decidable.isFalse (fun h => PyVal.noConfusion h)
  | PyVal.pystr s, PyVal.pystr t =>
      if h : s = t then Decidable.isTrue (by rw [h])
      else Decidable.isFalse (fun hh => h (PyVal.pystr.inj hh))
  | PyVal.pystr _, PyVal.pydict _ => Decidable.isFalse (fun h => PyVal.noConfusion h)
  | PyVal.pydict _, PyVal.pynone => Decidable.isFalse (fun h => PyVal.noConfusion h)
  | PyVal.pydict _, PyVal.pystr _ => Decidable.isFalse (fun h => PyVal.noConfusion h)
  | PyVal.pydict fs, PyVal.pydict gs =>
      match decEqFields fs gs with
      | Decidable.isTrue h => Decidable.isTrue (by rw [h])
      | Decidable.isFalse h => Decidable.isFalse (fun hh => h (PyVal.pydict.inj hh))

/-- Decidable equality on dict field lists. -/
def decEqFields : (fs gs : List (String × PyVal)) → Decidable (fs = gs)
  | [], [] => Decidable.isTrue rfl
  | [], _ :: _ => Decidable.isFalse (fun h => List.noConfusion h)
  | _ :: _, [] => Decidable.isFalse (fun h => List.noConfusion h)
  | (k, v) :: fs, (l, w) :: gs =>
      if h1 : k = l then
        match decEqPyVal v w with
        | Decidable.isTrue h2 =>
            match decEqFields fs gs with
            | Decidable.isTrue h3 => Decidable.isTrue (by rw [h1, h2, h3])
            | Decidable.isFalse h3 =>
                Decidable.isFalse (fun hh => by cases hh; exact h3 rfl)
        | Decidable.isFalse h2 =>
            Decidable.isFalse (fun hh => by cases hh; exact h2 rfl)
      else Decidable.isFalse (fun hh => by cases hh; exact h1 rfl)

end

instance : DecidableEq PyVal := decEqPyVal

/-- Python truthiness for the values above: `None` is falsy, a string is
truthy iff non-empty, a dict is truthy iff non-empty. -/
def pyTruthy : PyVal → Bool
  | PyVal.pynone => false
  | PyVal.pystr s => !s.isEmpty
  | PyVal.pydict fs => !fs.isEmpty

/-- First-match lookup in an association list of strings (the redis
key-value store). -/
def lookupStr : List (String × String) → String → Option String
  | [], _ => none
  | (k, v) :: rest, key => if k = key then some v else lookupStr rest key

/-- First-match lookup of a field in a Python dict. -/
def lookupField : List (String × PyVal) → String → Option PyVal
  | [], _ => none
  | (k, v) :: rest, key => if k = key then some v else lookupField rest key

/-- Python subscripting `v[key]`: a dict yields the field or raises
`KeyError`; other values raise `TypeError`. -/
def pySubscript (v : PyVal) (key : String) : Except String PyVal :=
  match v with
  | PyVal.pydict fs =>
      match lookupField fs key with
      | some x => Except.ok x
      | none => Except.error ("KeyError: " ++ key)
  | _ => Except.error "TypeError: value is not subscriptable"

mutual

/-- `json.dumps` on the modelled values (string escaping omitted: no key
or value in the claims contains a character that needs it). -/
def dumps : PyVal → String
  | PyVal.pynone => "null"
  | PyVal.pystr s => "\"" ++ s ++ "\""
  | PyVal.pydict fs => "\x7b" ++ dumpsFields fs ++ "\x7d"

/-- Serialization of the fields of a dict, comma separated. -/
def dumpsFields : List (String × PyVal) → String
  | [] => ""
  | [(k, v)] => "\"" ++ k ++ "\": " ++ dumps v
  | (k, v) :: rest => "\"" ++ k ++ "\": " ++ dumps v ++ ", " ++ dumpsFields rest

end

/-- One structured log line emitted through `logging`.  `request` and
`response` are the dicts built by `request_log` and `response_log`; the
other two are the lines of the kafka delivery callback. -/
inductive LogEntry where
  | request : String → String → Option PyVal → LogEntry
  | response : Option String → String → Nat → Option PyVal → LogEntry
  | infoLog : String → LogEntry
  | errorLog : String → LogEntry
deriving DecidableEq

/-- The message dict handed to `producer.produce` by `publish_to_kafka`:
`\x7b"id": transaction_id, "message": message, "user": user\x7d`. -/
structure KafkaMsg where
  id : String
  message : String
  user : PyVal
deriving DecidableEq

/-- Observable side effects of one inbound call, in order of occurrence
within each list.  `cacheGets` / `cacheSets` count the redis operations
that completed, `dirRequests` records the userIds posted to the member
service, `fetched` the (truthy) records it returned. -/
structure Trace where
  logs : List LogEntry
  published : List KafkaMsg
  counterIncs : List (Nat × String)
  cacheGets : Nat
  cacheSets : Nat
  dirRequests : List String
  fetched : List PyVal
deriving DecidableEq

/-- Per-call resolution of the nondeterminism in `app.py`: the value of
`random.randint(1, 20)`, the uuid produced by `uuid.uuid4()`, the error
handed to the kafka delivery callback (if any), whether the redis `get` /
`set` raise (and with what message), and the member-service response —
either a transport error or a pair (status code, parsed JSON body). -/
structure Oracle where
  randInt : Nat
  txnId : String
  deliveryErr : Option String
  cacheGetErr : Option String
  cacheSetErr : Option String
  dirResult : Except String (Nat × PyVal)

/-- The constant `INTERNAL_ERROR` of `app.py`. -/
def INTERNAL_ERROR : String := "INTERNAL SERVER ERROR"

/-- `request_log` of `app.py`: builds the "Request" log dict and returns
the generated transaction id.  The uuid comes from the oracle; the
`if payload` guard of the source is the truthiness test. -/
def request_log (o : Oracle) (component : String) (payload : PyVal) : String × LogEntry :=
  (o.txnId, LogEntry.request component o.txnId (if pyTruthy payload then some payload else none))

/-- `response_log` of `app.py`: builds the "Response" log dict (the
transaction id may be Python `None` when the failure happened before
`request_log` ran). -/
def response_log (transaction_id : Option String) (component : String)
    (return_code : Nat) (payload : PyVal) : LogEntry :=
  LogEntry.response transaction_id component return_code
    (if pyTruthy payload then some payload else none)

/-- The `delivery_report` callback inside `publish_to_kafka`: logs an
error line when delivery failed, an info line otherwise. -/
def delivery_report (err : Option String) : LogEntry :=
  match err with
  | some e => LogEntry.errorLog ("Error publishing to Kafka: " ++ e)
  | none => LogEntry.infoLog "Published to Kafka"

/-- `publish_to_kafka` of `app.py`: builds the message dict and produces
it; the delivery outcome only reaches the callback (which logs it) and is
never raised into the caller.  Returns the log lines and the produced
messages. -/
def publish_to_kafka (o : Oracle) (transaction_id : String) (user : PyVal)
    (message : String) : List LogEntry × List KafkaMsg :=
  (([delivery_report o.deliveryErr]), [KafkaMsg.mk transaction_id message user])

/-- `load_redis` of `app.py`: `redis_client.set(user_data[\x27userId\x27],
json.dumps(user_data))`.  The key is the record's own `userId` field; a
missing field raises `KeyError`, a non-string key or a redis failure also
raise.  On success the new store is returned. -/
def load_redis (o : Oracle) (cache : List (String × String)) (user_data : PyVal) :
    Except String (List (String × String)) :=
  match pySubscript user_data "userId" with
  | Except.error e => Except.error e
  | Except.ok keyVal =>
      match keyVal with
      | PyVal.pystr k =>
          match o.cacheSetErr with
          | some e => Except.error e
          | none => Except.ok ((k, dumps user_data) :: cache)
      | _ => Except.error "DataError: invalid key type"

/-- `check_redis` of `app.py`: `redis_client.get(user_id)`, returning the
stored string or Python `None`; a redis failure raises. -/
def check_redis (o : Oracle) (cache : List (String × String)) (user_id : String) :
    Except String (Option String) :=
  match o.cacheGetErr with
  | some e => Except.error e
  | none => Except.ok (lookupStr cache user_id)

/-- `get_member` of `app.py`: POSTs the userId to the member service;
only a 200 sets `user_data` to the parsed body, any other status leaves
it `None`; a transport failure raises. -/
def get_member (o : Oracle) (user_id : String) : Except String PyVal :=
  match o.dirResult with
  | Except.error e => Except.error e
  | Except.ok (status_code, body) =>
      Except.ok (if status_code = 200 then body else PyVal.pynone)

/-- Result of `authenticate_user`: either a returned Python value (with
the updated redis store and trace) or an uncaught exception carrying its
message (the store unchanged by the failed operation). -/
inductive AuthOut where
  | ok : PyVal → List (String × String) → Trace → AuthOut
  | exn : String → List (String × String) → Trace → AuthOut
deriving DecidableEq

/-- Cache-miss path of `authenticate_user` (the code after
`if not user_data:`): fetch from the member service and, when a truthy
record came back, write it through `load_redis` before returning it.  The
`cacheGets := 1` records the redis `get` that preceded this path. -/
def member_fallback (o : Oracle) (cache : List (String × String)) (user_id : String) : AuthOut :=
  match get_member o user_id with
  | Except.error e =>
      AuthOut.exn e cache (Trace.mk [] [] [] 1 0 [user_id] [])
  | Except.ok user_data =>
      if pyTruthy user_data then
        match load_redis o cache user_data with
        | Except.error e =>
            AuthOut.exn e cache (Trace.mk [] [] [] 1 0 [user_id] [user_data])
        | Except.ok cache2 =>
            AuthOut.ok user_data cache2 (Trace.mk [] [] [] 1 1 [user_id] [user_data])
      else
        AuthOut.ok user_data cache (Trace.mk [] [] [] 1 0 [user_id] [])

/-- `authenticate_user` of `app.py`.  A draw of 1 out of
`random.randint(1, 20)` publishes the `Unauthorized` event, bumps the
`unauthorized_counter` with the userId label and returns `None` without
touching redis or the member service; otherwise redis is consulted and,
on a falsy answer, `member_fallback` runs. -/
def authenticate_user (o : Oracle) (cache : List (String × String))
    (transaction_id : String) (user_id : String) : AuthOut :=
  if o.randInt = 1 then
    let user := PyVal.pydict [("userId", PyVal.pystr user_id)]
    let pub := publish_to_kafka o transaction_id user "Unauthorized"
    AuthOut.ok PyVal.pynone cache (Trace.mk pub.1 pub.2 [(1, user_id)] 0 0 [] [])
  else
    match check_redis o cache user_id with
    | Except.error e =>
        AuthOut.exn e cache (Trace.mk [] [] [] 1 0 [] [])
    | Except.ok (some s) =>
        if s.isEmpty then member_fallback o cache user_id
        else AuthOut.ok (PyVal.pystr s) cache (Trace.mk [] [] [] 1 0 [] [])
    | Except.ok none => member_fallback o cache user_id

/-- The body of one inbound POST as the handler sees it: either
`request.get_json()` / `data.get` raises (no JSON object body), or a JSON
object whose `userId` entry is absent / `null` (`none`) or a string. -/
inductive ReqBody where
  | invalid : String → ReqBody
  | obj : Option String → ReqBody

/-- Everything one call produces: the HTTP status and body of
`make_response(jsonify(payload), return_code)`, the redis store after the
call, and the trace of side effects. -/
structure CallOut where
  status : Nat
  body : PyVal
  cache : List (String × String)
  trace : Trace
deriving DecidableEq

/-- The `/authenticate` route of `app.py`.  A body that fails to parse as
a JSON object raises before `request_log`, so only the "Response" line is
logged, with transaction id `None`.  Otherwise the "Request" line is
logged, a missing/empty userId yields 400 with the echoed payload, and
the outcome of `authenticate_user` yields 200 (truthy value), 401 (falsy
value) or 500 (uncaught exception, with the generic error payload). -/
def authenticate (o : Oracle) (reqBody : ReqBody) (cache0 : List (String × String)) : CallOut :=
  match reqBody with
  | ReqBody.invalid msg =>
      let payload := PyVal.pydict
        [("error", PyVal.pystr INTERNAL_ERROR), ("details", PyVal.pystr msg)]
      CallOut.mk 500 payload cache0
        (Trace.mk [response_log none "authenticate" 500 payload] [] [] 0 0 [] [])
  | ReqBody.obj userIdOpt =>
      let user_id : PyVal :=
        match userIdOpt with
        | none => PyVal.pynone
        | some s => PyVal.pystr s
      let payload := PyVal.pydict [("userId", user_id)]
      let rl := request_log o "authenticate" payload
      let transaction_id := rl.1
      if pyTruthy user_id then
        match authenticate_user o cache0 transaction_id
            (match userIdOpt with | none => "" | some s => s) with
        | AuthOut.ok user cache1 t =>
            if pyTruthy user then
              CallOut.mk 200 user cache1
                (Trace.mk (rl.2 :: t.logs ++ [response_log (some transaction_id) "authenticate" 200 user])
                  t.published t.counterIncs t.cacheGets t.cacheSets t.dirRequests t.fetched)
            else
              CallOut.mk 401 payload cache1
                (Trace.mk (rl.2 :: t.logs ++ [response_log (some transaction_id) "authenticate" 401 payload])
                  t.published t.counterIncs t.cacheGets t.cacheSets t.dirRequests t.fetched)
        | AuthOut.exn e cache1 t =>
            let payload2 := PyVal.pydict
              [("error", PyVal.pystr INTERNAL_ERROR), ("details", PyVal.pystr e)]
            CallOut.mk 500 payload2 cache1
              (Trace.mk (rl.2 :: t.logs ++ [response_log (some transaction_id) "authenticate" 500 payload2])
                t.published t.counterIncs t.cacheGets t.cacheSets t.dirRequests t.fetched)
      else
        CallOut.mk 400 payload cache0
          (Trace.mk [rl.2, response_log (some transaction_id) "authenticate" 400 payload]
            [] [] 0 0 [] [])

/-- Sequential execution of several inbound calls against one process:
the redis store is threaded, each call's output collected. -/
def runCalls : List (Oracle × ReqBody) → List (String × String) →
    List (String × String) × List CallOut
  | [], cache => (cache, [])
  | (o, b) :: rest, cache =>
      let out := authenticate o b cache
      let r := runCalls rest out.cache
      (r.1, out :: r.2)

/-- The trace of side effects of an `authenticate_user` outcome. -/
def AuthOut.trace : AuthOut → Trace
  | AuthOut.ok _ _ t => t
  | AuthOut.exn _ _ t => t

/-- The redis store after an `authenticate_user` outcome. -/
def AuthOut.cacheAfter : AuthOut → List (String × String)
  | AuthOut.ok _ c _ => c
  | AuthOut.exn _ c _ => c

/-- Recognizes a "Request" log line. -/
def isRequestLog : LogEntry → Bool
  | LogEntry.request _ _ _ => true
  | _ => false

/-- Recognizes a "Response" log line. -/
def isResponseLog : LogEntry → Bool
  | LogEntry.response _ _ _ _ => true
  | _ => false

/-- All userIds posted to the member service over a list of calls. -/
def allDirRequests (outs : List CallOut) : List String :=
  (outs.map (fun out => out.trace.dirRequests)).flatten

/-- All records received from the member service over a list of calls. -/
def allFetched (outs : List CallOut) : List PyVal :=
  (outs.map (fun out => out.trace.fetched)).flatten

/-- The logs of the cache-miss path are empty: it never writes a log
line. -/
theorem member_fallback_logs (o : Oracle) (c : List (String × String)) (u : String) :
    (member_fallback o c u).trace.logs = [] := by
  unfold member_fallback
  split
  · rfl
  · split
    · split
      · rfl
      · rfl
    · rfl

/-- The cache-miss path publishes nothing and increments no counter. -/
theorem member_fallback_pub_ctr (o : Oracle) (c : List (String × String)) (u : String) :
    (member_fallback o c u).trace.published = [] ∧
    (member_fallback o c u).trace.counterIncs = [] := by
  unfold member_fallback
  split
  · exact ⟨rfl, rfl⟩
  · split
    · split
      · exact ⟨rfl, rfl⟩
      · exact ⟨rfl, rfl⟩
    · exact ⟨rfl, rfl⟩

/-- Inversion of a successful `load_redis`: the key is the record's own
`userId` field (a string), the set did not fail, and the store gained
exactly the pair (key, serialized record). -/
theorem load_redis_ok_inv (o : Oracle) (c c2 : List (String × String)) (ud : PyVal)
    (h : load_redis o c ud = Except.ok c2) :
    ∃ k, pySubscript ud "userId" = Except.ok (PyVal.pystr k) ∧
      o.cacheSetErr = none ∧ c2 = (k, dumps ud) :: c := by
  unfold load_redis at h
  split at h
  · exact absurd h (by simp)
  · rename_i keyVal hsub
    split at h
    · rename_i k
      split at h
      · exact absurd h (by simp)
      · rename_i hset
        refine ⟨k, hsub, hset, ?_⟩
        exact (Except.ok.inj h).symm
    · exact absurd h (by simp)

/-- The cache-miss path either leaves the store unchanged or conses one
pair (k, serialized record) where the record was fetched in this call and
carries `k` as its own `userId` field. -/
theorem member_fallback_cache (o : Oracle) (c : List (String × String)) (u : String) :
    (member_fallback o c u).cacheAfter = c ∨
    ∃ r k, r ∈ (member_fallback o c u).trace.fetched ∧
      pySubscript r "userId" = Except.ok (PyVal.pystr k) ∧
      (member_fallback o c u).cacheAfter = (k, dumps r) :: c := by
  unfold member_fallback
  split
  · left; rfl
  · rename_i ud hok
    split
    · split
      · left; rfl
      · rename_i c2 hload
        right
        obtain ⟨k, hsub, _, hc2⟩ := load_redis_ok_inv o c c2 ud hload
        exact ⟨ud, k, by simp [AuthOut.trace, AuthOut.cacheAfter], hsub,
          by simp [AuthOut.cacheAfter, hc2]⟩
    · left; rfl

/-- No log line of `authenticate_user` is a "Request" or "Response"
line: only the kafka delivery callback logs there. -/
theorem authenticate_user_logs_kafka_only (o : Oracle) (c : List (String × String))
    (t u : String) :
    ((authenticate_user o c t u).trace.logs).all
      (fun e => !(isRequestLog e) && !(isResponseLog e)) = true := by
  unfold authenticate_user
  split
  · cases h : o.deliveryErr <;>
      simp [AuthOut.trace, publish_to_kafka, delivery_report, h, isRequestLog, isResponseLog]
  · split
    · rfl
    · split
      · simp [member_fallback_logs]
      · rfl
    · simp [member_fallback_logs]

/-- Outside the rejection branch, `authenticate_user` publishes nothing
and increments no counter. -/
theorem authenticate_user_not_rejected (o : Oracle) (c : List (String × String))
    (t u : String) (h : ¬ o.randInt = 1) :
    (authenticate_user o c t u).trace.published = [] ∧
    (authenticate_user o c t u).trace.counterIncs = [] := by
  unfold authenticate_user
  rw [if_neg h]
  split
  · exact ⟨rfl, rfl⟩
  · split
    · exact member_fallback_pub_ctr o c u
    · exact ⟨rfl, rfl⟩
  · exact member_fallback_pub_ctr o c u

/-- In the rejection branch `authenticate_user` returns Python `None`
with the store untouched, exactly one published event, one counter bump,
and no redis or member-service activity. -/
theorem authenticate_user_rejected (o : Oracle) (c : List (String × String))
    (t u : String) (h : o.randInt = 1) :
    authenticate_user o c t u =
      AuthOut.ok PyVal.pynone c
        (Trace.mk [delivery_report o.deliveryErr]
          [KafkaMsg.mk t "Unauthorized" (PyVal.pydict [("userId", PyVal.pystr u)])]
          [(1, u)] 0 0 [] []) := by
  unfold authenticate_user
  rw [if_pos h]
  rfl

/-- In the rejection branch no cache write happens; otherwise no publish
happens: the two side effects never co-occur in one call to
`authenticate_user`. -/
theorem authenticate_user_one_effect (o : Oracle) (c : List (String × String))
    (t u : String) :
    (authenticate_user o c t u).trace.published = [] ∨
    (authenticate_user o c t u).trace.cacheSets = 0 := by
  by_cases h : o.randInt = 1
  · right
    rw [authenticate_user_rejected o c t u h]
    rfl
  · left
    exact (authenticate_user_not_rejected o c t u h).1

/-- `authenticate_user` either leaves the store unchanged or conses one
pair (k, serialized record) for a record fetched in this call whose own
`userId` field is `k`. -/
theorem authenticate_user_cache (o : Oracle) (c : List (String × String)) (t u : String) :
    (authenticate_user o c t u).cacheAfter = c ∨
    ∃ r k, r ∈ (authenticate_user o c t u).trace.fetched ∧
      pySubscript r "userId" = Except.ok (PyVal.pystr k) ∧
      (authenticate_user o c t u).cacheAfter = (k, dumps r) :: c := by
  unfold authenticate_user
  split
  · left; rfl
  · split
    · left; rfl
    · split
      · exact member_fallback_cache o c u
      · left; rfl
    · exact member_fallback_cache o c u

/-- Claim C1: when the rejection policy triggers on a non-empty userId,
the call publishes exactly one event of the form (id = transaction id,
message = "Unauthorized", user = the userId dict), increments the
rejection counter once with that userId label, answers 401 with the
echoed input, and performs no redis read, no redis write and no
member-service request. -/
theorem rejection_publishes_once_and_rejects (o : Oracle)
    (c : List (String × String)) (s : String)
    (h1 : o.randInt = 1) (h2 : s.isEmpty = false) :
    (authenticate o (ReqBody.obj (some s)) c).trace.published
        = [KafkaMsg.mk o.txnId "Unauthorized" (PyVal.pydict [("userId", PyVal.pystr s)])] ∧
    (authenticate o (ReqBody.obj (some s)) c).trace.counterIncs = [(1, s)] ∧
    (authenticate o (ReqBody.obj (some s)) c).status = 401 ∧
    (authenticate o (ReqBody.obj (some s)) c).body
        = PyVal.pydict [("userId", PyVal.pystr s)] ∧
    (authenticate o (ReqBody.obj (some s)) c).trace.cacheGets = 0 ∧
    (authenticate o (ReqBody.obj (some s)) c).trace.cacheSets = 0 ∧
    (authenticate o (ReqBody.obj (some s)) c).trace.dirRequests = [] ∧
    (authenticate o (ReqBody.obj (some s)) c).cache = c := by
  have hr := authenticate_user_rejected o c o.txnId s h1
  simp [authenticate, request_log, hr, pyTruthy, h2]

/-- The record of the spec scenario: the directory answer for "u1". -/
def recGold : PyVal := PyVal.pydict [("userId", PyVal.pystr "u1"), ("tier", PyVal.pystr "gold")]

/-- A member-service answer "not found" (non-200 status). -/
def dirAbsent : Except String (Nat × PyVal) := Except.ok (404, PyVal.pynone)

/-- A call on which the rejection draw hits (randint gave 1), kafka
delivery succeeds, redis is healthy. -/
def oracleReject : Oracle := Oracle.mk 1 "txn-r" none none none dirAbsent

/-- A rejected call whose kafka delivery fails. -/
def oracleRejectNoDelivery : Oracle :=
  Oracle.mk 1 "txn-rd" (some "broker unreachable") none none dirAbsent

/-- A non-rejected call whose redis `get` raises. -/
def oracleCacheDown : Oracle :=
  Oracle.mk 5 "txn-c" none (some "redis down") none (Except.ok (200, recGold))

/-- A non-rejected call with healthy redis, directory answering 200 with
`recGold`. -/
def oracleMiss : Oracle := Oracle.mk 7 "txn-m" none none none (Except.ok (200, recGold))

/-- A non-rejected call with healthy redis, directory answering 404. -/
def oracleNotFound : Oracle := Oracle.mk 7 "txn-n" none none none dirAbsent

/-- Witness for claim C1 at a concrete rejected call. -/
theorem rejection_publishes_once_and_rejects_witness :
    (authenticate oracleReject (ReqBody.obj (some "u2")) []).trace.published
        = [KafkaMsg.mk "txn-r" "Unauthorized" (PyVal.pydict [("userId", PyVal.pystr "u2")])] ∧
    (authenticate oracleReject (ReqBody.obj (some "u2")) []).trace.counterIncs = [(1, "u2")] ∧
    (authenticate oracleReject (ReqBody.obj (some "u2")) []).status = 401 ∧
    (authenticate oracleReject (ReqBody.obj (some "u2")) []).body
        = PyVal.pydict [("userId", PyVal.pystr "u2")] ∧
    (authenticate oracleReject (ReqBody.obj (some "u2")) []).trace.cacheGets = 0 ∧
    (authenticate oracleReject (ReqBody.obj (some "u2")) []).trace.cacheSets = 0 ∧
    (authenticate oracleReject (ReqBody.obj (some "u2")) []).trace.dirRequests = [] ∧
    (authenticate oracleReject (ReqBody.obj (some "u2")) []).cache = [] :=
  rejection_publishes_once_and_rejects oracleReject [] "u2" rfl rfl

/-- Claim C6: when the rejection policy triggers and kafka delivery of
the audit event fails, the failure is only logged through the delivery
callback; the call still answers 401 with the echoed input. -/
theorem delivery_failure_still_rejects (o : Oracle) (c : List (String × String))
    (s e : String) (h1 : o.randInt = 1) (h2 : s.isEmpty = false)
    (h3 : o.deliveryErr = some e) :
    (authenticate o (ReqBody.obj (some s)) c).status = 401 ∧
    (authenticate o (ReqBody.obj (some s)) c).body
        = PyVal.pydict [("userId", PyVal.pystr s)] ∧
    LogEntry.errorLog ("Error publishing to Kafka: " ++ e)
        ∈ (authenticate o (ReqBody.obj (some s)) c).trace.logs := by
  have hr := authenticate_user_rejected o c o.txnId s h1
  simp [authenticate, request_log, hr, pyTruthy, h2, delivery_report, h3]

/-- Witness for claim C6 at a concrete rejected call with failed
delivery. -/
theorem delivery_failure_still_rejects_witness :
    (authenticate oracleRejectNoDelivery (ReqBody.obj (some "u2")) []).status = 401 ∧
    (authenticate oracleRejectNoDelivery (ReqBody.obj (some "u2")) []).body
        = PyVal.pydict [("userId", PyVal.pystr "u2")] ∧
    LogEntry.errorLog ("Error publishing to Kafka: " ++ "broker unreachable")
        ∈ (authenticate oracleRejectNoDelivery (ReqBody.obj (some "u2")) []).trace.logs :=
  delivery_failure_still_rejects oracleRejectNoDelivery [] "u2" "broker unreachable" rfl rfl rfl

/-- Claim C7: a failing redis operation on the lookup path is not a
cache miss: the exception propagates to the handler, the call answers
500 with the generic payload carrying the original message, the member
service is never consulted and the store is unchanged. -/
theorem cache_failure_is_internal_error (o : Oracle) (c : List (String × String))
    (s e : String) (h1 : ¬ o.randInt = 1) (h2 : s.isEmpty = false)
    (h3 : o.cacheGetErr = some e) :
    (authenticate o (ReqBody.obj (some s)) c).status = 500 ∧
    (authenticate o (ReqBody.obj (some s)) c).body
        = PyVal.pydict [("error", PyVal.pystr INTERNAL_ERROR), ("details", PyVal.pystr e)] ∧
    (authenticate o (ReqBody.obj (some s)) c).trace.dirRequests = [] ∧
    (authenticate o (ReqBody.obj (some s)) c).cache = c := by
  simp [authenticate, authenticate_user, check_redis, request_log, pyTruthy, h1, h2, h3]

/-- Witness for claim C7 at a concrete call with redis down. -/
theorem cache_failure_is_internal_error_witness :
    (authenticate oracleCacheDown (ReqBody.obj (some "u1")) []).status = 500 ∧
    (authenticate oracleCacheDown (ReqBody.obj (some "u1")) []).body
        = PyVal.pydict
            [("error", PyVal.pystr INTERNAL_ERROR), ("details", PyVal.pystr "redis down")] ∧
    (authenticate oracleCacheDown (ReqBody.obj (some "u1")) []).trace.dirRequests = [] ∧
    (authenticate oracleCacheDown (ReqBody.obj (some "u1")) []).cache = [] :=
  cache_failure_is_internal_error oracleCacheDown [] "u1" "redis down" (by decide) rfl rfl

/-- Truthiness of a modelled string, as an unfolding equation. -/
theorem pyTruthy_str (s : String) : pyTruthy (PyVal.pystr s) = !s.isEmpty := rfl

/-- Truthiness of a modelled dict, as an unfolding equation. -/
theorem pyTruthy_dict (fs : List (String × PyVal)) :
    pyTruthy (PyVal.pydict fs) = !fs.isEmpty := rfl

/-- For a parsed body with a non-empty userId, the route only adds the
two log lines around `authenticate_user`: every other side effect of the
call is the orchestrator's. -/
theorem authenticate_effects (o : Oracle) (s : String) (c : List (String × String))
    (hs : s.isEmpty = false) :
    (authenticate o (ReqBody.obj (some s)) c).trace.published
      = (authenticate_user o c o.txnId s).trace.published ∧
    (authenticate o (ReqBody.obj (some s)) c).trace.cacheSets
      = (authenticate_user o c o.txnId s).trace.cacheSets ∧
    (authenticate o (ReqBody.obj (some s)) c).trace.counterIncs
      = (authenticate_user o c o.txnId s).trace.counterIncs ∧
    (authenticate o (ReqBody.obj (some s)) c).trace.cacheGets
      = (authenticate_user o c o.txnId s).trace.cacheGets ∧
    (authenticate o (ReqBody.obj (some s)) c).trace.dirRequests
      = (authenticate_user o c o.txnId s).trace.dirRequests ∧
    (authenticate o (ReqBody.obj (some s)) c).trace.fetched
      = (authenticate_user o c o.txnId s).trace.fetched ∧
    (authenticate o (ReqBody.obj (some s)) c).cache
      = (authenticate_user o c o.txnId s).cacheAfter := by
  cases h : authenticate_user o c o.txnId s with
  | ok v c1 t =>
      by_cases hv : pyTruthy v <;>
        simp [authenticate, request_log, pyTruthy_str, hs, h, hv, AuthOut.trace, AuthOut.cacheAfter]
  | exn e c1 t =>
      simp [authenticate, request_log, pyTruthy_str, hs, h, AuthOut.trace, AuthOut.cacheAfter]

/-- Claim C4 (counterexample to "exactly one"): a call that is answered
from the cache performs neither an event publish nor a cache write, so
some calls have zero of the two side effects. -/
theorem cache_hit_call_has_zero_side_effects :
    (authenticate oracleNotFound (ReqBody.obj (some "u1")) [("u1", dumps recGold)]).status
      = 200 ∧
    (authenticate oracleNotFound (ReqBody.obj (some "u1")) [("u1", dumps recGold)]).trace.published
      = [] ∧
    (authenticate oracleNotFound (ReqBody.obj (some "u1")) [("u1", dumps recGold)]).trace.cacheSets
      = 0 := by
  decide

/-- Claim C4 (amended): every call performs at most one of the two side
effects — a publish excludes a cache write and conversely — and the
rejection counter is bumped only when the call was rejected (401 answer
from the rejection draw). -/
theorem at_most_one_side_effect (o : Oracle) (b : ReqBody) (c : List (String × String)) :
    ((authenticate o b c).trace.published = [] ∨
      (authenticate o b c).trace.cacheSets = 0) ∧
    ((authenticate o b c).trace.counterIncs = [] ∨
      ((authenticate o b c).status = 401 ∧ o.randInt = 1)) := by
  cases b with
  | invalid m => exact ⟨Or.inl rfl, Or.inl rfl⟩
  | obj uOpt =>
      cases uOpt with
      | none => exact ⟨Or.inl rfl, Or.inl rfl⟩
      | some s =>
          by_cases hs : s.isEmpty
          · constructor <;> left <;> simp [authenticate, request_log, pyTruthy, hs]
          · have hs2 : s.isEmpty = false := by simpa using hs
            obtain ⟨hpub, hsets, hctr, _, _, _, _⟩ := authenticate_effects o s c hs2
            by_cases hr : o.randInt = 1
            · have h := authenticate_user_rejected o c o.txnId s hr
              refine ⟨Or.inr ?_, Or.inr ⟨?_, hr⟩⟩
              · rw [hsets, h]
                rfl
              · simp [authenticate, request_log, pyTruthy, hs2, h]
            · obtain ⟨h1, h2⟩ := authenticate_user_not_rejected o c o.txnId s hr
              exact ⟨Or.inl (by rw [hpub, h1]), Or.inl (by rw [hctr, h2])⟩

/-- Claim C5 (counterexample to "every inbound call"): a body that fails
to parse raises before `request_log`, so that call produces no "Request"
line at all (only the "Response" line, carrying transaction id `None`). -/
theorem invalid_body_call_logs_no_request :
    ((authenticate oracleMiss (ReqBody.invalid "bad body") []).trace.logs).countP
        isRequestLog = 0 ∧
    ((authenticate oracleMiss (ReqBody.invalid "bad body") []).trace.logs).countP
        isResponseLog = 1 ∧
    (authenticate oracleMiss (ReqBody.invalid "bad body") []).trace.logs
      = [LogEntry.response none "authenticate" 500
          (some (PyVal.pydict
            [("error", PyVal.pystr INTERNAL_ERROR), ("details", PyVal.pystr "bad body")]))] := by
  decide

/-- Claim C5 (amended): every call whose body parses as a JSON object
logs exactly one "Request" line first and one "Response" line last, both
carrying the call's transaction id, with only kafka-callback lines in
between. -/
theorem parsed_call_logs_request_then_response (o : Oracle) (u : Option String)
    (c : List (String × String)) :
    ∃ p mid code q,
      (authenticate o (ReqBody.obj u) c).trace.logs
        = LogEntry.request "authenticate" o.txnId p ::
            (mid ++ [LogEntry.response (some o.txnId) "authenticate" code q]) ∧
      mid.all (fun e => !(isRequestLog e) && !(isResponseLog e)) = true := by
  cases u with
  | none =>
      exact ⟨some (PyVal.pydict [("userId", PyVal.pynone)]), [], 400,
        some (PyVal.pydict [("userId", PyVal.pynone)]),
        by simp [authenticate, request_log, response_log, pyTruthy], rfl⟩
  | some s =>
      by_cases hs0 : s.isEmpty
      · exact ⟨some (PyVal.pydict [("userId", PyVal.pystr s)]), [], 400,
          some (PyVal.pydict [("userId", PyVal.pystr s)]),
          by simp [authenticate, request_log, response_log, pyTruthy_str, pyTruthy_dict, hs0],
          rfl⟩
      · have hs : s.isEmpty = false := by simpa using hs0
        have hk := authenticate_user_logs_kafka_only o c o.txnId s
        cases h : authenticate_user o c o.txnId s with
        | ok v c1 t =>
            rw [h] at hk
            by_cases hv : pyTruthy v
            · exact ⟨some (PyVal.pydict [("userId", PyVal.pystr s)]), t.logs, 200, some v,
                by simp [authenticate, request_log, response_log, pyTruthy_str, pyTruthy_dict,
                  hs, h, hv],
                by simpa [AuthOut.trace] using hk⟩
            · exact ⟨some (PyVal.pydict [("userId", PyVal.pystr s)]), t.logs, 401,
                some (PyVal.pydict [("userId", PyVal.pystr s)]),
                by simp [authenticate, request_log, response_log, pyTruthy_str, pyTruthy_dict,
                  hs, h, hv],
                by simpa [AuthOut.trace] using hk⟩
        | exn e c1 t =>
            rw [h] at hk
            exact ⟨some (PyVal.pydict [("userId", PyVal.pystr s)]), t.logs, 500,
              some (PyVal.pydict
                [("error", PyVal.pystr INTERNAL_ERROR), ("details", PyVal.pystr e)]),
              by simp [authenticate, request_log, response_log, pyTruthy_str, pyTruthy_dict,
                hs, h],
              by simpa [AuthOut.trace] using hk⟩

/-- Witness for the amended claim C5 at a concrete parsed call. -/
theorem parsed_call_logs_request_then_response_witness :
    ∃ p mid code q,
      (authenticate oracleMiss (ReqBody.obj (some "u1")) []).trace.logs
        = LogEntry.request "authenticate" "txn-m" p ::
            (mid ++ [LogEntry.response (some "txn-m") "authenticate" code q]) ∧
      mid.all (fun e => !(isRequestLog e) && !(isResponseLog e)) = true :=
  parsed_call_logs_request_then_response oracleMiss (some "u1") []

/-- The result of `data.get("userId", None)` as a Python value. -/
def pyOfUserId : Option String → PyVal
  | none => PyVal.pynone
  | some s => PyVal.pystr s

/-- Claim C9 (counterexample to the `\x7buserId: null\x7d` body): an
empty-string userId is answered 400 with the echoed empty string, not
with a null userId. -/
theorem empty_userId_echoes_empty_string :
    (authenticate oracleMiss (ReqBody.obj (some "")) []).status = 400 ∧
    (authenticate oracleMiss (ReqBody.obj (some "")) []).body
      = PyVal.pydict [("userId", PyVal.pystr "")] ∧
    ¬ (authenticate oracleMiss (ReqBody.obj (some "")) []).body
      = PyVal.pydict [("userId", PyVal.pynone)] := by
  decide

/-- Claim C9 (amended): a missing or empty userId is answered 400 with
the echoed input (null for missing, "" for empty), and the call has no
side effect at all: no publish, no counter bump, no redis read or write,
no member-service request, store unchanged. -/
theorem missing_or_empty_userId_is_400 (o : Oracle) (c : List (String × String))
    (u : Option String) (h : u = none ∨ u = some "") :
    (authenticate o (ReqBody.obj u) c).status = 400 ∧
    (authenticate o (ReqBody.obj u) c).body = PyVal.pydict [("userId", pyOfUserId u)] ∧
    (authenticate o (ReqBody.obj u) c).trace.published = [] ∧
    (authenticate o (ReqBody.obj u) c).trace.counterIncs = [] ∧
    (authenticate o (ReqBody.obj u) c).trace.cacheGets = 0 ∧
    (authenticate o (ReqBody.obj u) c).trace.cacheSets = 0 ∧
    (authenticate o (ReqBody.obj u) c).trace.dirRequests = [] ∧
    (authenticate o (ReqBody.obj u) c).cache = c := by
  have he : ("" : String).isEmpty = true := rfl
  rcases h with h | h <;> subst h <;>
    simp [authenticate, request_log, pyTruthy, pyOfUserId, he]

/-- Witness for the amended claim C9 at a concrete call with no userId. -/
theorem missing_or_empty_userId_is_400_witness :
    (authenticate oracleMiss (ReqBody.obj none) []).status = 400 ∧
    (authenticate oracleMiss (ReqBody.obj none) []).body
      = PyVal.pydict [("userId", PyVal.pynone)] ∧
    (authenticate oracleMiss (ReqBody.obj none) []).trace.published = [] ∧
    (authenticate oracleMiss (ReqBody.obj none) []).trace.counterIncs = [] ∧
    (authenticate oracleMiss (ReqBody.obj none) []).trace.cacheGets = 0 ∧
    (authenticate oracleMiss (ReqBody.obj none) []).trace.cacheSets = 0 ∧
    (authenticate oracleMiss (ReqBody.obj none) []).trace.dirRequests = [] ∧
    (authenticate oracleMiss (ReqBody.obj none) []).cache = [] :=
  missing_or_empty_userId_is_400 oracleMiss [] none (Or.inl rfl)

/-- Claim C2 (code behaviour at the failing input): on a cache hit the
call answers 200 with the raw string stored in redis — `check_redis`
never deserializes it (despite its own `-> dict` annotation), so the body
is the serialization of the record, not the record, although the member
service is indeed never consulted. -/
theorem cache_hit_returns_serialized_string :
    (authenticate oracleNotFound (ReqBody.obj (some "u1")) [("u1", dumps recGold)]).status
      = 200 ∧
    (authenticate oracleNotFound (ReqBody.obj (some "u1")) [("u1", dumps recGold)]).body
      = PyVal.pystr (dumps recGold) ∧
    ¬ (authenticate oracleNotFound (ReqBody.obj (some "u1")) [("u1", dumps recGold)]).body
      = recGold ∧
    (authenticate oracleNotFound
        (ReqBody.obj (some "u1")) [("u1", dumps recGold)]).trace.dirRequests = [] := by
  decide

/-- Claim C3 (code behaviour at the failing input): a miss-then-hit pair
of calls for the same userId makes no second member-service request, and
the first call answers with the record — but the second call answers
with the serialized string, not the identical record. -/
theorem second_call_returns_serialized_copy :
    ((runCalls [(oracleMiss, ReqBody.obj (some "u1")),
        (oracleNotFound, ReqBody.obj (some "u1"))] []).2.map CallOut.status) = [200, 200] ∧
    ((runCalls [(oracleMiss, ReqBody.obj (some "u1")),
        (oracleNotFound, ReqBody.obj (some "u1"))] []).2.map CallOut.body)
      = [recGold, PyVal.pystr (dumps recGold)] ∧
    allDirRequests (runCalls [(oracleMiss, ReqBody.obj (some "u1")),
        (oracleNotFound, ReqBody.obj (some "u1"))] []).2 = ["u1"] ∧
    ¬ (PyVal.pystr (dumps recGold)) = recGold := by
  decide

/-- Claim C10: after a miss and a 200 from the member service with a
(non-empty) record, the cache write is keyed by the record's own
`userId` field: the store gains exactly that pair, and when the record's
field differs from the requested id the requested id is still absent
from the cache; when the field is missing the call fails as an internal
error (500) and nothing is written. -/
theorem cache_write_keyed_by_record_field (o : Oracle) (c : List (String × String))
    (s k : String) (fs : List (String × PyVal))
    (h1 : ¬ o.randInt = 1) (h2 : s.isEmpty = false) (h3 : o.cacheGetErr = none)
    (h4 : lookupStr c s = none) (h5 : o.dirResult = Except.ok (200, PyVal.pydict fs))
    (h6 : o.cacheSetErr = none) (h7 : fs.isEmpty = false) :
    (lookupField fs "userId" = some (PyVal.pystr k) →
      (authenticate o (ReqBody.obj (some s)) c).cache
          = (k, dumps (PyVal.pydict fs)) :: c ∧
      (¬ k = s →
        lookupStr (authenticate o (ReqBody.obj (some s)) c).cache s = none)) ∧
    (lookupField fs "userId" = none →
      (authenticate o (ReqBody.obj (some s)) c).status = 500 ∧
      (authenticate o (ReqBody.obj (some s)) c).cache = c) := by
  have htr : pyTruthy (PyVal.pydict fs) = true := by simp [pyTruthy_dict, h7]
  have hau : authenticate_user o c o.txnId s = member_fallback o c s := by
    unfold authenticate_user
    rw [if_neg h1]
    simp [check_redis, h3, h4]
  obtain ⟨_, _, _, _, _, _, hcache⟩ := authenticate_effects o s c h2
  constructor
  · intro hf
    have hmf : member_fallback o c s
        = AuthOut.ok (PyVal.pydict fs) ((k, dumps (PyVal.pydict fs)) :: c)
            (Trace.mk [] [] [] 1 1 [s] [PyVal.pydict fs]) := by
      unfold member_fallback
      simp [get_member, h5, htr, load_redis, pySubscript, hf, h6]
    have hc : (authenticate o (ReqBody.obj (some s)) c).cache
        = (k, dumps (PyVal.pydict fs)) :: c := by
      rw [hcache, hau, hmf]
      rfl
    refine ⟨hc, fun hks => ?_⟩
    rw [hc]
    simp [lookupStr, hks, h4]
  · intro hf
    have hmf : member_fallback o c s
        = AuthOut.exn ("KeyError: " ++ "userId") c
            (Trace.mk [] [] [] 1 0 [s] [PyVal.pydict fs]) := by
      unfold member_fallback
      simp [get_member, h5, htr, load_redis, pySubscript, hf]
    constructor
    · simp [authenticate, request_log, pyTruthy_str, h2, hau, hmf]
    · rw [hcache, hau, hmf]
      rfl

/-- A member-service record whose own `userId` field ("b") differs from
any requested id used with it. -/
def recMismatch : PyVal := PyVal.pydict [("userId", PyVal.pystr "b")]

/-- A non-rejected call whose directory answer is `recMismatch`. -/
def oracleMismatch : Oracle :=
  Oracle.mk 3 "txn-x" none none none (Except.ok (200, recMismatch))

/-- Witness for claim C10: requesting "a" while the directory record
carries userId "b" caches under "b" and leaves "a" uncached. -/
theorem cache_write_keyed_by_record_field_witness :
    (lookupField [("userId", PyVal.pystr "b")] "userId" = some (PyVal.pystr "b") →
      (authenticate oracleMismatch (ReqBody.obj (some "a")) []).cache
          = ("b", dumps (PyVal.pydict [("userId", PyVal.pystr "b")])) :: [] ∧
      (¬ "b" = "a" →
        lookupStr (authenticate oracleMismatch (ReqBody.obj (some "a")) []).cache "a"
          = none)) ∧
    (lookupField [("userId", PyVal.pystr "b")] "userId" = none →
      (authenticate oracleMismatch (ReqBody.obj (some "a")) []).status = 500 ∧
      (authenticate oracleMismatch (ReqBody.obj (some "a")) []).cache = []) :=
  cache_write_keyed_by_record_field oracleMismatch [] "a" "b"
    [("userId", PyVal.pystr "b")] (by decide) rfl rfl rfl rfl rfl rfl

/-- Claim C8 (counterexample to "fetched for that id"): one call
requesting "a" against a directory answering a record whose own userId
field is "b" leaves a cache entry under "b", although no record was ever
fetched for the id "b" (the only member-service request was for "a"). -/
theorem cached_key_never_requested :
    lookupStr (runCalls [(oracleMismatch, ReqBody.obj (some "a"))] []).1 "b"
      = some (dumps recMismatch) ∧
    allDirRequests (runCalls [(oracleMismatch, ReqBody.obj (some "a"))] []).2 = ["a"] ∧
    ¬ "b" ∈ allDirRequests (runCalls [(oracleMismatch, ReqBody.obj (some "a"))] []).2 := by
  decide

/-- Every pair stored in the cache is the serialization of a record that
came back from the member service, keyed by that record's own `userId`
field. -/
def cacheFromDirectory (cache : List (String × String)) (fetched : List PyVal) : Prop :=
  ∀ kv, kv ∈ cache → ∃ r, r ∈ fetched ∧
    pySubscript r "userId" = Except.ok (PyVal.pystr kv.1) ∧ kv.2 = dumps r

/-- One call either leaves the store unchanged or conses one pair
(k, serialized record) for a record fetched in this call whose own
`userId` field is `k`. -/
theorem authenticate_cache (o : Oracle) (b : ReqBody) (c : List (String × String)) :
    (authenticate o b c).cache = c ∨
    ∃ r k, r ∈ (authenticate o b c).trace.fetched ∧
      pySubscript r "userId" = Except.ok (PyVal.pystr k) ∧
      (authenticate o b c).cache = (k, dumps r) :: c := by
  cases b with
  | invalid m => exact Or.inl rfl
  | obj uOpt =>
      cases uOpt with
      | none => exact Or.inl rfl
      | some s =>
          by_cases hs0 : s.isEmpty
          · left
            simp [authenticate, request_log, pyTruthy_str, hs0]
          · have hs : s.isEmpty = false := by simpa using hs0
            obtain ⟨_, _, _, _, _, hfetch, hcache⟩ := authenticate_effects o s c hs
            rcases authenticate_user_cache o c o.txnId s with hc | ⟨r, k, hr, hsub, hc⟩
            · exact Or.inl (hcache.trans hc)
            · refine Or.inr ⟨r, k, ?_, hsub, hcache.trans hc⟩
              rw [hfetch]
              exact hr

/-- Extending a run by one call preserves `cacheFromDirectory` when the
new call's fetched records are appended. -/
theorem cacheFromDirectory_step (o : Oracle) (b : ReqBody) (c : List (String × String))
    (F : List PyVal) (h : cacheFromDirectory c F) :
    cacheFromDirectory (authenticate o b c).cache
      (F ++ (authenticate o b c).trace.fetched) := by
  rcases authenticate_cache o b c with hc | ⟨r, k, hr, hsub, hc⟩
  · rw [hc]
    intro kv hkv
    obtain ⟨r, hm, h2, h3⟩ := h kv hkv
    exact ⟨r, List.mem_append_left _ hm, h2, h3⟩
  · rw [hc]
    intro kv hkv
    rcases List.mem_cons.mp hkv with rfl | hkv2
    · exact ⟨r, List.mem_append_right _ hr, hsub, rfl⟩
    · obtain ⟨r2, hm, h2, h3⟩ := h kv hkv2
      exact ⟨r2, List.mem_append_left _ hm, h2, h3⟩

/-- Unfolding of `runCalls` on one more call. -/
theorem runCalls_cons (o : Oracle) (b : ReqBody) (rest : List (Oracle × ReqBody))
    (c : List (String × String)) :
    runCalls ((o, b) :: rest) c
      = ((runCalls rest (authenticate o b c).cache).1,
          authenticate o b c :: (runCalls rest (authenticate o b c).cache).2) := rfl

/-- Unfolding of `allFetched` on one more call. -/
theorem allFetched_cons (out : CallOut) (outs : List CallOut) :
    allFetched (out :: outs) = out.trace.fetched ++ allFetched outs := rfl

/-- Any run of calls preserves `cacheFromDirectory`, accumulating the
fetched records. -/
theorem runCalls_cacheFromDirectory (calls : List (Oracle × ReqBody)) :
    ∀ c F, cacheFromDirectory c F →
      cacheFromDirectory (runCalls calls c).1 (F ++ allFetched (runCalls calls c).2) := by
  induction calls with
  | nil =>
      intro c F h
      simpa [runCalls, allFetched] using h
  | cons ob rest ih =>
      obtain ⟨o, b⟩ := ob
      intro c F h
      rw [runCalls_cons]
      have h2 := cacheFromDirectory_step o b c F h
      have h3 := ih (authenticate o b c).cache (F ++ (authenticate o b c).trace.fetched) h2
      simpa [allFetched_cons, List.append_assoc] using h3

/-- Claim C8 (amended): after any sequence of calls starting from an
empty cache, every cache entry is the serialization of a record that the
member service returned during those calls, stored under that record's
own `userId` field — the cache never holds a record that did not come
from the directory. -/
theorem cache_only_holds_directory_records (calls : List (Oracle × ReqBody)) :
    cacheFromDirectory (runCalls calls []).1 (allFetched (runCalls calls []).2) := by
  have h0 : cacheFromDirectory ([] : List (String × String)) ([] : List PyVal) := by
    intro kv hkv
    cases hkv
  have h := runCalls_cacheFromDirectory calls [] [] h0
  simpa using h

/-- Witness for the amended claim C8 at a concrete one-call run. -/
theorem cache_only_holds_directory_records_witness :
    cacheFromDirectory (runCalls [(oracleMiss, ReqBody.obj (some "u1"))] []).1
      (allFetched (runCalls [(oracleMiss, ReqBody.obj (some "u1"))] []).2) :=
  cache_only_holds_directory_records [(oracleMiss, ReqBody.obj (some "u1"))]
